import Mathlib

/-!
Verification of the ICMPv6 / NDP dispatch engine of the gVisor IPv6 endpoint
(pkg/tcpip/network/ipv6/icmp.go).  The functions handleICMP and handleControl
are translated into pure Lean functions over a byte-level packet model.  The
supporting wire-format helpers (the header package: checksum, NDP option
iterator, header accessors, size constants) are not part of the repository
slice under verification, so they are modelled from the specification's wire
format section (sections 4.1, 4.2 and 6) and RFC 4443/4861 field layouts.

Bytes are Nat, a view is a byte list, and a vectorised view is a list of
views.  Collaborator calls (DupTentativeAddrDetected, HandleProbe,
HandleConfirmation, HandleNDPRA, transport delivery) are returned as an
ordered event list; counter increments and transmitted packets are returned
in an explicit output record.
-/

namespace GvisorIPv6

abbrev View := List Nat
abbrev VV := List View

/-- First view of a vectorised view (VectorisedView.First); empty when there
are no views. -/
def vvFirst (d : VV) : View := d.headD []

/-- Remaining views after dropping the first (Clone followed by RemoveFirst
in handleICMP's checksum computation). -/
def vvTail (d : VV) : VV := d.tail

/-- VectorisedView.TrimFront: remove the first count bytes, dropping views
that are wholly consumed. -/
def vvTrimFront : VV → Nat → VV
  | [], _ => []
  | v :: vs, n =>
    if n = 0 then v :: vs
    else if n < v.length then v.drop n :: vs
    else vvTrimFront vs (n - v.length)

/-- Logical byte stream of a vectorised view. -/
def vvFlatten (d : VV) : List Nat := d.flatten

/-- Total size in bytes of a vectorised view. -/
def vvSize (d : VV) : Nat := (vvFlatten d).length

/-! ### Checksum (modelled from the spec)

Modelled from the spec: the header package's Checksum / ICMPv6Checksum are
outside the provided sources.  Section 4.2 and section 6 describe them as the
standard IPv6 pseudo-header one's-complement checksum over the full ICMPv6
message, treating the multi-segment payload as one logical byte stream. -/

/-- One step bound for folding end-around carries; structural fuel so the
kernel can evaluate it. -/
def foldCarryAux : Nat → Nat → Nat
  | 0, t => t
  | fuel + 1, t => if t < 65536 then t else foldCarryAux fuel (t % 65536 + t / 65536)

/-- Fold a sum into a 16-bit one's-complement accumulator. -/
def foldCarry (t : Nat) : Nat := foldCarryAux t t

/-- Sum of big-endian 16-bit words of a byte list; a trailing odd byte is the
high byte of a final word. -/
def wordSum : List Nat → Nat
  | [] => 0
  | [a] => a % 256 * 256
  | a :: b :: rest => a % 256 * 256 + b % 256 + wordSum rest

/-- Big-endian 32-bit encoding of a Nat (used for the pseudo-header length). -/
def be32 (n : Nat) : List Nat :=
  [n / 16777216 % 256, n / 65536 % 256, n / 256 % 256, n % 256]

/-- Zero the 16-bit checksum field (bytes 2 and 3) of an ICMPv6 message. -/
def zeroChecksum (h : View) : View := (h.set 2 0).set 3 0

/-- Write the 16-bit checksum field (bytes 2 and 3) of an ICMPv6 message. -/
def setChecksum (h : View) (c : Nat) : View := (h.set 2 (c / 256 % 256)).set 3 (c % 256)

/-- Embedded 16-bit big-endian checksum field of an ICMPv6 message. -/
def embeddedChecksum (h : View) : Nat := h.getD 2 0 * 256 + h.getD 3 0

/-- Modelled from the spec: ICMPv6Checksum of the header package.  Standard
IPv6 pseudo-header checksum (source address, destination address, upper-layer
length, next header 58) over the message with its checksum field zeroed plus
the extra payload viewed as one logical byte stream. -/
def icmpv6Checksum (h : View) (src dst : List Nat) (payload : VV) : Nat :=
  65535 - foldCarry (wordSum
    (src ++ dst ++ be32 (h.length + vvSize payload) ++ [0, 0, 0, 58]
      ++ vvFlatten payload ++ zeroChecksum h))

/-! ### Wire-format constants and accessors (modelled from the spec)

Modelled from the spec: the header package's size constants and field
accessors are outside the provided sources; values follow the spec's wire
format section and RFC 4443/4861 (ICMPv6 header 4 bytes, minimum message 8
bytes, NS body reserved 4 + target 16, NA body flags/reserved 4 + target 16,
RS body reserved 4, RA body 12, IPv6 header 40 bytes, fragment header 8
bytes). -/

def icmpv6MinimumSize : Nat := 8
def icmpv6HeaderSize : Nat := 4
def icmpv6PacketTooBigMinimumSize : Nat := 8
def icmpv6DstUnreachableMinimumSize : Nat := 8
def icmpv6NeighborSolicitMinimumSize : Nat := 24
def icmpv6NeighborAdvertSize : Nat := 32
def icmpv6EchoMinimumSize : Nat := 8
def ndpRSMinimumSize : Nat := 4
def ndpRAMinimumSize : Nat := 12
def ipv6MinimumSize : Nat := 40
def ipv6FragmentHeaderSize : Nat := 8
def ndpHopLimit : Nat := 255
def ipv6ProtocolNumber : Nat := 34525
def icmpv6ProtocolNumber : Nat := 58
def ipv6FragmentHeaderID : Nat := 44
def icmpv6PortUnreachableCode : Nat := 4

/-- The IPv6 unspecified address. -/
def ipv6Any : List Nat := List.replicate 16 0

/-- The all-nodes link-local multicast address ff02::1. -/
def ipv6AllNodesMulticastAddress : List Nat :=
  [255, 2, 0, 0, 0, 0, 0, 0, 0, 0, 0, 0, 0, 0, 0, 1]

/-- Modelled from the spec: IsV6MulticastAddress (16 bytes, first byte ff). -/
def isV6MulticastAddress (a : List Nat) : Bool :=
  decide (a.length = 16) && decide (a.getD 0 0 = 255)

/-- Modelled from the spec: IsV6LinkLocalAddress (fe80::/10). -/
def isV6LinkLocalAddress (a : List Nat) : Bool :=
  decide (a.length = 16) && decide (a.getD 0 0 = 254)
    && decide (Nat.land (a.getD 1 0) 192 = 128)

/-- ICMPv6 message type (byte 0). -/
def icmpType (v : View) : Nat := v.getD 0 0
/-- ICMPv6 message code (byte 1). -/
def icmpCode (v : View) : Nat := v.getD 1 0
/-- NDP payload of an ICMPv6 message (bytes after the 4-byte ICMPv6 header). -/
def ndpPayload (v : View) : View := v.drop 4
/-- MTU field of a Packet Too Big message (bytes 4-7, big endian). -/
def icmpMTU (v : View) : Nat :=
  v.getD 4 0 * 16777216 + v.getD 5 0 * 65536 + v.getD 6 0 * 256 + v.getD 7 0

/-- Hop limit field of an IPv6 header (byte 7). -/
def ipv6HopLimit (iph : View) : Nat := iph.getD 7 0
/-- Source address of an IPv6 header (bytes 8-23). -/
def ipv6SourceAddress (iph : View) : List Nat := (iph.drop 8).take 16
/-- Destination address of an IPv6 header (bytes 24-39). -/
def ipv6DestinationAddress (iph : View) : List Nat := (iph.drop 24).take 16
/-- Next-header field of an IPv6 header (byte 6): TransportProtocol. -/
def ipv6TransportProtocol (iph : View) : Nat := iph.getD 6 0

/-- Fragment offset of an IPv6 fragment header (bytes 2-3 shifted right 3). -/
def fragmentOffset (f : View) : Nat := (f.getD 2 0 * 256 + f.getD 3 0) / 8
/-- Next-header field of an IPv6 fragment header (byte 0). -/
def fragmentTransportProtocol (f : View) : Nat := f.getD 0 0

/-- Target address of a Neighbor Solicitation (NDP payload bytes 4-19). -/
def nsTargetAddress (v : View) : List Nat := ((ndpPayload v).drop 4).take 16
/-- Options area of a Neighbor Solicitation (NDP payload from byte 20). -/
def nsOptions (v : View) : View := (ndpPayload v).drop 20
/-- Target address of a Neighbor Advertisement (NDP payload bytes 4-19). -/
def naTargetAddress (v : View) : List Nat := ((ndpPayload v).drop 4).take 16
/-- Options area of a Neighbor Advertisement (NDP payload from byte 20). -/
def naOptions (v : View) : View := (ndpPayload v).drop 20
/-- Solicited flag of a Neighbor Advertisement (bit 6 of NDP payload byte 0). -/
def naSolicitedFlag (v : View) : Bool := ((ndpPayload v).getD 0 0).testBit 6
/-- Override flag of a Neighbor Advertisement (bit 5 of NDP payload byte 0). -/
def naOverrideFlag (v : View) : Bool := ((ndpPayload v).getD 0 0).testBit 5
/-- Router flag of a Neighbor Advertisement (bit 7 of NDP payload byte 0). -/
def naRouterFlag (v : View) : Bool := ((ndpPayload v).getD 0 0).testBit 7
/-- Options area of a Router Solicitation (NDP payload from byte 4). -/
def rsOptions (v : View) : View := (ndpPayload v).drop 4
/-- Options area of a Router Advertisement (NDP payload from byte 12). -/
def raOptions (v : View) : View := (ndpPayload v).drop 12

/-! ### NDP option iterator (modelled from the spec)

Modelled from the spec: the header package's NDPOptions.Iter is outside the
provided sources.  Per spec section 4.1 each step yields exactly one of next
option, clean end, or malformed (zero length byte or truncated option);
unknown option types are skipped, not errored.  Iteration is translated to a
function returning the options parsed before any malformed point together
with a flag recording whether a malformed option terminated the scan. -/

inductive NDPOpt where
  | sourceLinkLayer (linkAddr : List Nat)
  | targetLinkLayer (linkAddr : List Nat)
  | other (typ : Nat)
deriving Repr, DecidableEq

/-- Option scan with structural fuel (one unit per option, at least one byte
consumed per option, so fuel equal to the byte count never runs out). -/
def iterOptionsAux : Nat → List Nat → List NDPOpt × Bool
  | _, [] => ([], false)
  | _, [_] => ([], true)
  | 0, _ :: _ :: _ => ([], true)
  | fuel + 1, t :: l :: rest =>
    if l = 0 then ([], true)
    else if rest.length + 2 < l * 8 then ([], true)
    else
      let body := rest.take (l * 8 - 2)
      let o : NDPOpt :=
        if t = 1 then .sourceLinkLayer (body.take 6)
        else if t = 2 then .targetLinkLayer (body.take 6)
        else .other t
      let p := iterOptionsAux fuel (rest.drop (l * 8 - 2))
      (o :: p.1, p.2)

/-- Parse an NDP options area: the options before any malformed point, and
whether the area is malformed. -/
def iterOptions (bytes : List Nat) : List NDPOpt × Bool :=
  iterOptionsAux bytes.length bytes

/-! ### Endpoint state, collaborators and observable effects -/

/-- The addressing context of the triggering route (stack.Route fields read
or written by handleICMP). -/
structure Route where
  localAddress : List Nat
  remoteAddress : List Nat
  localLinkAddress : List Nat
  remoteLinkAddress : List Nat
  nicID : Nat
  defaultTTL : Nat
deriving Repr, DecidableEq

/-- The receiving endpoint (fields of the ipv6 endpoint used by handleICMP
and handleControl). -/
structure Endpoint where
  nicID : Nat
  localAddress : List Nat
deriving Repr, DecidableEq

/-- Collaborator oracles: the address-ownership tracker, forwarding
configuration, and the outcome of WritePacket.  IsAddrTentative returning
none models its error case. -/
structure Env where
  isAddrTentative : Nat → List Nat → Option Bool
  checkLocalAddress : Nat → Nat → List Nat → Nat
  forwarding : Bool
  writeOk : Bool

/-- Abstract control types passed to handleControl. -/
inductive ControlType where
  | packetTooBig
  | portUnreachable
deriving Repr, DecidableEq

/-- A collaborator call issued while processing one packet, in program
order. -/
inductive Event where
  | dupTentativeAddrDetected (nicID : Nat) (addr : List Nat)
  | handleProbe (remote localAddr : List Nat) (protocol : Nat) (linkAddr : List Nat)
  | handleConfirmation (target : List Nat) (linkAddr : List Nat)
      (solicited override isRouter : Bool)
  | handleNDPRA (nicID : Nat) (routerAddr : List Nat) (raPayload : List Nat)
  | deliverControl (localAddr destAddr : List Nat) (netProto transProto : Nat)
      (typ : ControlType) (extra : Nat) (data : VV)
  | deliverTransport (protocol : Nat)
deriving Repr, DecidableEq

/-- A WritePacket call: the prepended ICMPv6 message, the extra payload, the
network header parameters, and the route fields in effect at the call. -/
structure Transmitted where
  hdr : View
  data : VV
  ttl : Nat
  tos : Nat
  localAddr : List Nat
  remoteAddr : List Nat
  remoteLinkAddr : List Nat
  protocol : Nat
deriving Repr, DecidableEq

/-- Observable outcome of processing one packet: counter increments (all
from zero), collaborator calls, and transmitted packets. -/
structure Output where
  invalid : Nat := 0
  packetTooBig : Nat := 0
  dstUnreachable : Nat := 0
  neighborSolicit : Nat := 0
  neighborAdvert : Nat := 0
  echoRequest : Nat := 0
  echoReply : Nat := 0
  timeExceeded : Nat := 0
  paramProblem : Nat := 0
  routerSolicit : Nat := 0
  routerAdvert : Nat := 0
  redirectMsg : Nat := 0
  sentDropped : Nat := 0
  sentNeighborAdvert : Nat := 0
  sentEchoReply : Nat := 0
  events : List Event := []
  transmitted : List Transmitted := []
deriving Repr, DecidableEq

/-! ### handleControl -/

/-- Modelled from the spec: calculateMTU lives in ipv6.go outside the
provided sources; the spec describes the extra field as the decoded MTU, so
the decoded value is passed through. -/
def calculateMTU (mtu : Nat) : Nat := mtu

/-- handleControl: deliver control information for an embedded original
packet to the transport dispatcher, skipping the embedded IPv6 header and a
zero-offset fragment header. -/
def handleControl (e : Endpoint) (typ : ControlType) (extra : Nat) (d : VV) :
    List Event :=
  let h := vvFirst d
  if h.length < ipv6MinimumSize ∨ ipv6SourceAddress h ≠ e.localAddress then []
  else
    let d1 := vvTrimFront d ipv6MinimumSize
    let p := ipv6TransportProtocol h
    if p = ipv6FragmentHeaderID then
      let f := vvFirst d1
      if f.length < ipv6FragmentHeaderSize ∨ fragmentOffset f ≠ 0 then []
      else
        [.deliverControl e.localAddress (ipv6DestinationAddress h)
          ipv6ProtocolNumber (fragmentTransportProtocol f) typ extra
          (vvTrimFront d1 ipv6FragmentHeaderSize)]
    else
      [.deliverControl e.localAddress (ipv6DestinationAddress h)
        ipv6ProtocolNumber p typ extra d1]

/-! ### Per-type handlers -/

/-- Packet Too Big branch of handleICMP. -/
def handlePacketTooBig (e : Endpoint) (d : VV) (v : View) : Output :=
  if v.length < icmpv6PacketTooBigMinimumSize then
    { packetTooBig := 1, invalid := 1 }
  else
    { packetTooBig := 1,
      events := handleControl e .packetTooBig (calculateMTU (icmpMTU v))
        (vvTrimFront d icmpv6PacketTooBigMinimumSize) }

/-- Destination Unreachable branch of handleICMP. -/
def handleDstUnreachable (e : Endpoint) (d : VV) (v : View) : Output :=
  if v.length < icmpv6DstUnreachableMinimumSize then
    { dstUnreachable := 1, invalid := 1 }
  else if icmpCode v = icmpv6PortUnreachableCode then
    { dstUnreachable := 1,
      events := handleControl e .portUnreachable 0
        (vvTrimFront d icmpv6DstUnreachableMinimumSize) }
  else
    { dstUnreachable := 1 }

/-- The Neighbor Solicitation option loop: collect the Source Link-Layer
Address option, treating a second one as invalid (none). -/
def scanNSOpts : List NDPOpt → List Nat → Option (List Nat)
  | [], acc => some acc
  | .sourceLinkLayer la :: rest, acc =>
    if acc.length ≠ 0 then none else scanNSOpts rest la
  | _ :: rest, acc => scanNSOpts rest acc

/-- The Neighbor Advertisement message built in reply to a Neighbor
Solicitation: type 136, code 0, flags (Solicited per argument, Override
always set), the solicited target address, and a single Target Link-Layer
Address option with the local link address, before the checksum is
written. -/
def naMessage (solicited : Bool) (targetAddr linkAddr : List Nat) : View :=
  [136, 0, 0, 0, (if solicited then 64 else 0) + 32, 0, 0, 0]
    ++ targetAddr ++ [2, 1] ++ linkAddr

/-- Construct and transmit the Neighbor Advertisement reply on the cloned
route (local address forced to the target; unspecified source redirects to
the all-nodes multicast address and clears Solicited; a Source Link-Layer
Address option overrides the remote link address). -/
def nsReply (env : Env) (r : Route) (targetAddr sourceLinkAddr : List Nat)
    (evs : List Event) : Output :=
  let solicited : Bool := if r.remoteAddress = ipv6Any then false else true
  let remoteAddr :=
    if r.remoteAddress = ipv6Any then ipv6AllNodesMulticastAddress
    else r.remoteAddress
  let remoteLink :=
    if sourceLinkAddr.length ≠ 0 then sourceLinkAddr else r.remoteLinkAddress
  let na := naMessage solicited targetAddr r.localLinkAddress
  let c := icmpv6Checksum na targetAddr remoteAddr []
  let t : Transmitted :=
    { hdr := setChecksum na c, data := [], ttl := ndpHopLimit, tos := 0,
      localAddr := targetAddr, remoteAddr := remoteAddr,
      remoteLinkAddr := remoteLink, protocol := icmpv6ProtocolNumber }
  if env.writeOk then
    { neighborSolicit := 1, events := evs, transmitted := [t],
      sentNeighborAdvert := 1 }
  else
    { neighborSolicit := 1, events := evs, transmitted := [t],
      sentDropped := 1 }

/-- Neighbor Solicitation branch of handleICMP. -/
def handleNS (e : Endpoint) (env : Env) (r : Route) (v : View)
    (ndpValid : Bool) : Output :=
  if v.length < icmpv6NeighborSolicitMinimumSize ∨ ¬ndpValid then
    { neighborSolicit := 1, invalid := 1 }
  else
    let targetAddr := nsTargetAddress v
    match env.isAddrTentative e.nicID targetAddr with
    | none => { neighborSolicit := 1 }
    | some true =>
      if r.remoteAddress = ipv6Any then
        { neighborSolicit := 1,
          events := [.dupTentativeAddrDetected e.nicID targetAddr] }
      else
        { neighborSolicit := 1 }
    | some false =>
      if env.checkLocalAddress e.nicID ipv6ProtocolNumber targetAddr = 0 then
        { neighborSolicit := 1 }
      else
        let pr := iterOptions (nsOptions v)
        match scanNSOpts pr.1 [] with
        | none => { neighborSolicit := 1, invalid := 1 }
        | some sourceLinkAddr =>
          if pr.2 then { neighborSolicit := 1, invalid := 1 }
          else if sourceLinkAddr.length = 0 then
            if isV6MulticastAddress r.localAddress
                ∧ ¬(r.remoteAddress = ipv6Any) then
              { neighborSolicit := 1, invalid := 1 }
            else
              nsReply env r targetAddr sourceLinkAddr []
          else if r.remoteAddress = ipv6Any then
            { neighborSolicit := 1, invalid := 1 }
          else
            nsReply env r targetAddr sourceLinkAddr
              [.handleProbe r.remoteAddress r.localAddress ipv6ProtocolNumber
                sourceLinkAddr]

/-- The Neighbor Advertisement option loop: one reachability confirmation
per Target Link-Layer Address option. -/
def naConfirmations (target : List Nat) (sol ovr rtr : Bool) :
    List NDPOpt → List Event
  | [] => []
  | .targetLinkLayer la :: rest =>
    .handleConfirmation target la sol ovr rtr
      :: naConfirmations target sol ovr rtr rest
  | _ :: rest => naConfirmations target sol ovr rtr rest

/-- Neighbor Advertisement branch of handleICMP.  The option area is
pre-validated (Iter with check set) before any further processing. -/
def handleNA (env : Env) (r : Route) (v : View) (ndpValid : Bool) : Output :=
  if v.length < icmpv6NeighborAdvertSize ∨ ¬ndpValid then
    { neighborAdvert := 1, invalid := 1 }
  else
    let pr := iterOptions (naOptions v)
    if pr.2 then { neighborAdvert := 1, invalid := 1 }
    else
      let targetAddr := naTargetAddress v
      match env.isAddrTentative r.nicID targetAddr with
      | none => { neighborAdvert := 1 }
      | some true =>
        { neighborAdvert := 1,
          events := [.dupTentativeAddrDetected r.nicID targetAddr] }
      | some false =>
        { neighborAdvert := 1,
          events := naConfirmations targetAddr (naSolicitedFlag v)
            (naOverrideFlag v) (naRouterFlag v) pr.1 }

/-- Echo Request branch of handleICMP: the reply copies the first 8 bytes of
the request, sets the type to Echo Reply, and recomputes the checksum over
the reply header and the original payload. -/
def handleEchoRequest (env : Env) (r : Route) (v : View) (d : VV) : Output :=
  if v.length < icmpv6EchoMinimumSize then
    { echoRequest := 1, invalid := 1 }
  else
    let data := vvTrimFront d icmpv6EchoMinimumSize
    let reply := (v.take icmpv6EchoMinimumSize).set 0 129
    let c := icmpv6Checksum reply r.localAddress r.remoteAddress data
    let t : Transmitted :=
      { hdr := setChecksum reply c, data := data, ttl := r.defaultTTL,
        tos := 0, localAddr := r.localAddress, remoteAddr := r.remoteAddress,
        remoteLinkAddr := r.remoteLinkAddress,
        protocol := icmpv6ProtocolNumber }
    if env.writeOk then
      { echoRequest := 1, transmitted := [t], sentEchoReply := 1 }
    else
      { echoRequest := 1, transmitted := [t], sentDropped := 1 }

/-- Echo Reply branch of handleICMP. -/
def handleEchoReply (v : View) : Output :=
  if v.length < icmpv6EchoMinimumSize then
    { echoReply := 1, invalid := 1 }
  else
    { echoReply := 1, events := [.deliverTransport icmpv6ProtocolNumber] }

/-- The Router Solicitation option loop: each Source Link-Layer Address
option feeds a reachability probe unless the IP source address has zero
length, which returns early and silently. -/
def rsLoop (r : Route) (srcAddr : List Nat) :
    List NDPOpt → Bool → Output
  | [], errored =>
    if errored then { routerSolicit := 1, invalid := 1 }
    else { routerSolicit := 1 }
  | .sourceLinkLayer la :: rest, errored =>
    if srcAddr.length = 0 then { routerSolicit := 1 }
    else
      let o := rsLoop r srcAddr rest errored
      { o with events :=
          .handleProbe srcAddr r.localAddress ipv6ProtocolNumber la
            :: o.events }
  | _ :: rest, errored => rsLoop r srcAddr rest errored

/-- Router Solicitation branch of handleICMP. -/
def handleRS (env : Env) (r : Route) (iph v : View) (ndpValid : Bool) :
    Output :=
  if ¬ndpValid then { routerSolicit := 1, invalid := 1 }
  else if ¬env.forwarding then { routerSolicit := 1, invalid := 1 }
  else if (ndpPayload v).length < ndpRSMinimumSize then
    { routerSolicit := 1, invalid := 1 }
  else
    let pr := iterOptions (rsOptions v)
    rsLoop r (ipv6SourceAddress iph) pr.1 pr.2

/-- The Router Advertisement option loop: each Source Link-Layer Address
option feeds a reachability probe for the advertising router. -/
def raLoop (r : Route) (routerAddr : List Nat) :
    List NDPOpt → Bool → Output
  | [], errored =>
    if errored then { routerAdvert := 1, invalid := 1 }
    else { routerAdvert := 1 }
  | .sourceLinkLayer la :: rest, errored =>
    let o := raLoop r routerAddr rest errored
    { o with events :=
        .handleProbe routerAddr r.localAddress ipv6ProtocolNumber la
          :: o.events }
  | _ :: rest, errored => raLoop r routerAddr rest errored

/-- The probe calls produced for a list of parsed options: one
HandleProbe(src, local, IPv6 protocol number, option address) per Source
Link-Layer Address option, in option order.  Used to state exactly which
calls the Router Solicitation and Router Advertisement loops apply. -/
def sllProbes (src localAddr : List Nat) : List NDPOpt → List Event
  | [] => []
  | .sourceLinkLayer la :: rest =>
    .handleProbe src localAddr ipv6ProtocolNumber la
      :: sllProbes src localAddr rest
  | _ :: rest => sllProbes src localAddr rest

/-- Router Advertisement branch of handleICMP.  HandleNDPRA is invoked
before the option loop runs. -/
def handleRA (r : Route) (iph v : View) (ndpValid : Bool) : Output :=
  let p := ndpPayload v
  if p.length < ndpRAMinimumSize ∨ ¬ndpValid then
    { routerAdvert := 1, invalid := 1 }
  else
    let routerAddr := ipv6SourceAddress iph
    if ¬isV6LinkLocalAddress routerAddr then
      { routerAdvert := 1, invalid := 1 }
    else
      let pr := iterOptions (raOptions v)
      let o := raLoop r routerAddr pr.1 pr.2
      { o with events := .handleNDPRA r.nicID routerAddr p :: o.events }

/-- The NDP validity gate: no fragmentation header, hop limit 255, code 0. -/
def isNDPValid (iph v : View) (hasFragmentHeader : Bool) : Bool :=
  !hasFragmentHeader && decide (ipv6HopLimit iph = ndpHopLimit)
    && decide (icmpCode v = 0)

/-- handleICMP: validate the global minimum size and the checksum, then
dispatch on the message type. -/
def handleICMP (e : Endpoint) (env : Env) (r : Route) (netHeader : View)
    (d : VV) (hasFragmentHeader : Bool) : Output :=
  let v := vvFirst d
  if v.length < icmpv6MinimumSize then { invalid := 1 }
  else if embeddedChecksum v ≠ icmpv6Checksum v (ipv6SourceAddress netHeader)
      (ipv6DestinationAddress netHeader) (vvTail d) then
    { invalid := 1 }
  else
    let ndpValid := isNDPValid netHeader v hasFragmentHeader
    let t := icmpType v
    if t = 2 then handlePacketTooBig e d v
    else if t = 1 then handleDstUnreachable e d v
    else if t = 135 then handleNS e env r v ndpValid
    else if t = 136 then handleNA env r v ndpValid
    else if t = 128 then handleEchoRequest env r v d
    else if t = 129 then handleEchoReply v
    else if t = 3 then { timeExceeded := 1 }
    else if t = 4 then { paramProblem := 1 }
    else if t = 133 then handleRS env r netHeader v ndpValid
    else if t = 134 then handleRA r netHeader v ndpValid
    else if t = 137 then
      if ndpValid then { redirectMsg := 1 } else { redirectMsg := 1, invalid := 1 }
    else { invalid := 1 }

/-- The per-type minimum length enforced by the dispatcher before a branch
interprets its payload (the Router Solicitation and Router Advertisement
branches check the NDP payload, 4 bytes into the message). -/
def typeSpecificMinSize (t : Nat) : Option Nat :=
  if t = 2 then some icmpv6PacketTooBigMinimumSize
  else if t = 1 then some icmpv6DstUnreachableMinimumSize
  else if t = 135 then some icmpv6NeighborSolicitMinimumSize
  else if t = 136 then some icmpv6NeighborAdvertSize
  else if t = 128 then some icmpv6EchoMinimumSize
  else if t = 129 then some icmpv6EchoMinimumSize
  else if t = 133 then some (icmpv6HeaderSize + ndpRSMinimumSize)
  else if t = 134 then some (icmpv6HeaderSize + ndpRAMinimumSize)
  else none

/-! ### Concrete fixtures for witnesses and counterexamples -/

/-- A link-local address used as a packet source. -/
def addrA : List Nat := [254, 128, 0, 0, 0, 0, 0, 0, 0, 0, 0, 0, 0, 0, 0, 1]
/-- A link-local address used as the receiving endpoint's address. -/
def addrB : List Nat := [254, 128, 0, 0, 0, 0, 0, 0, 0, 0, 0, 0, 0, 0, 0, 2]
/-- A six-byte link-layer address. -/
def linkA : List Nat := [170, 187, 204, 221, 238, 255]

/-- An IPv6 header with hop limit 255 and the given addresses. -/
def mkIph (src dst : List Nat) : View := [96, 0, 0, 0, 0, 0, 58, 255] ++ src ++ dst

/-- Collaborators answering: not tentative, locally owned, forwarding on,
transmission succeeding. -/
def envA : Env :=
  { isAddrTentative := fun _ _ => some false,
    checkLocalAddress := fun _ _ _ => 1,
    forwarding := true, writeOk := true }

/-- Collaborators reporting every address tentative. -/
def envTentative : Env := { envA with isAddrTentative := fun _ _ => some true }

/-- Collaborators whose tentative-address query errors. -/
def envErr : Env := { envA with isAddrTentative := fun _ _ => none }

/-- A route from addrA to the endpoint address addrB. -/
def routeA : Route :=
  { localAddress := addrB, remoteAddress := addrA, localLinkAddress := linkA,
    remoteLinkAddress := [1, 2, 3, 4, 5, 6], nicID := 7, defaultTTL := 64 }

/-- The same route with an unspecified remote (packet source) address. -/
def routeUnspec : Route := { routeA with remoteAddress := ipv6Any }

/-- The receiving endpoint. -/
def epA : Endpoint := { nicID := 7, localAddress := addrB }

/-- Write a matching checksum into a raw message. -/
def withCk (raw : View) (src dst : List Nat) (p : VV) : View :=
  setChecksum raw (icmpv6Checksum raw src dst p)

/-- An Echo Request, identifier 0x1234, sequence 7, payload "ping". -/
def echoReqPkt : View :=
  withCk ([128, 0, 0, 0, 18, 52, 0, 7] ++ [112, 105, 110, 103]) addrA addrB []

/-- A Neighbor Solicitation for addrB with one Source Link-Layer Address
option. -/
def nsPkt : View :=
  withCk ([135, 0, 0, 0, 0, 0, 0, 0] ++ addrB ++ [1, 1] ++ linkA) addrA addrB []

/-- A Neighbor Solicitation carrying two Source Link-Layer Address
options. -/
def nsTwoSllPkt : View :=
  withCk ([135, 0, 0, 0, 0, 0, 0, 0] ++ addrB ++ [1, 1] ++ linkA ++ [1, 1] ++ linkA)
    addrA addrB []

/-- A Duplicate Address Detection probe: Neighbor Solicitation for addrB
from the unspecified address, no options. -/
def nsDadPkt : View :=
  withCk ([135, 0, 0, 0, 0, 0, 0, 0] ++ addrB) ipv6Any addrB []

/-- A Neighbor Solicitation whose option area has a zero length byte. -/
def nsMalformedPkt : View :=
  withCk ([135, 0, 0, 0, 0, 0, 0, 0] ++ addrB ++ [1, 0]) addrA addrB []

/-- A solicited Neighbor Advertisement for addrB with a Target Link-Layer
Address option. -/
def naPkt : View :=
  withCk ([136, 0, 0, 0, 96, 0, 0, 0] ++ addrB ++ [2, 1] ++ linkA) addrA addrB []

/-- A Router Advertisement with one valid Source Link-Layer Address option
followed by a zero-length (malformed) option. -/
def raMalformedPkt : View :=
  withCk ([134, 0, 0, 0, 64, 0, 0, 0, 0, 0, 0, 0, 0, 0, 0, 0]
    ++ [1, 1] ++ linkA ++ [2, 0]) addrA addrB []

/-- A Router Advertisement with one Source Link-Layer Address option. -/
def raGoodPkt : View :=
  withCk ([134, 0, 0, 0, 64, 0, 0, 0, 0, 0, 0, 0, 0, 0, 0, 0] ++ [1, 1] ++ linkA)
    addrA addrB []

/-- A Router Solicitation from the unspecified address carrying a Source
Link-Layer Address option. -/
def rsUnspecPkt : View :=
  withCk ([133, 0, 0, 0, 0, 0, 0, 0] ++ [1, 1] ++ linkA) ipv6Any addrB []

/-- A Router Solicitation from a specified source with one valid Source
Link-Layer Address option followed by a zero-length (malformed) option. -/
def rsMalformedPkt : View :=
  withCk ([133, 0, 0, 0, 0, 0, 0, 0] ++ [1, 1] ++ linkA ++ [2, 0])
    addrA addrB []

/-- A Packet Too Big message whose embedded original header has an all-zero
source address (not the endpoint's). -/
def ptbPkt : View :=
  withCk ([2, 0, 0, 0, 0, 0, 5, 0] ++ List.replicate 40 0) addrA addrB []

/-- A Neighbor Solicitation truncated to 10 bytes. -/
def shortNsPkt : View := withCk [135, 0, 0, 0, 0, 0, 0, 0, 1, 2] addrA addrB []

/-- An Echo Request whose embedded checksum field is wrong. -/
def badCkPkt : View := setChecksum [128, 0, 0, 0, 18, 52, 0, 7] 1

/-! ### Helper lemmas -/

theorem foldCarryAux_lt (fuel t : Nat) (h : t ≤ fuel) :
    foldCarryAux fuel t < 65536 := by
  induction fuel generalizing t with
  | zero => simpa [foldCarryAux] using Nat.lt_of_le_of_lt h (by norm_num)
  | succ n ih =>
    rw [foldCarryAux]
    split
    · assumption
    · rename_i hge
      apply ih
      have h1 : 65536 ≤ t := Nat.le_of_not_lt hge
      have h2 : 1 ≤ t / 65536 := (Nat.one_le_div_iff (by norm_num)).2 h1
      have h3 := Nat.div_add_mod t 65536
      omega

theorem foldCarry_lt (t : Nat) : foldCarry t < 65536 :=
  foldCarryAux_lt t t le_rfl

theorem icmpv6Checksum_lt (h : View) (src dst : List Nat) (p : VV) :
    icmpv6Checksum h src dst p < 65536 := by
  unfold icmpv6Checksum
  omega

theorem getD_set_self (l : List Nat) (n a d : Nat) (h : n < l.length) :
    (l.set n a).getD n d = a := by
  induction l generalizing n with
  | nil => simp at h
  | cons x xs ih =>
    cases n with
    | zero => simp
    | succ m => simpa using ih m (by simpa using h)

theorem getD_set_ne (l : List Nat) (m n a d : Nat) (h : m ≠ n) :
    (l.set m a).getD n d = l.getD n d := by
  induction l generalizing m n with
  | nil => simp
  | cons x xs ih =>
    cases m with
    | zero =>
      cases n with
      | zero => exact absurd rfl h
      | succ k => simp
    | succ m' =>
      cases n with
      | zero => simp
      | succ k => simpa using ih m' k (fun hc => h (by omega))

theorem length_setChecksum (h : View) (c : Nat) :
    (setChecksum h c).length = h.length := by
  simp [setChecksum]

theorem embeddedChecksum_setChecksum (h : View) (c : Nat)
    (hlen : 4 ≤ h.length) (hc : c < 65536) :
    embeddedChecksum (setChecksum h c) = c := by
  unfold embeddedChecksum setChecksum
  rw [getD_set_ne _ 3 2 _ _ (by omega), getD_set_self _ 2 _ _ (by omega),
    getD_set_self _ 3 _ _ (by simp; omega)]
  omega

theorem zeroChecksum_setChecksum (h : View) (c : Nat) :
    zeroChecksum (setChecksum h c) = zeroChecksum h := by
  unfold zeroChecksum setChecksum
  rw [List.set_comm _ _ _ (by omega), List.set_set,
    List.set_comm _ _ _ (by omega : (3 : Nat) ≠ 2), List.set_set,
    List.set_comm _ _ _ (by omega : (2 : Nat) ≠ 3)]

theorem icmpv6Checksum_setChecksum (h : View) (c : Nat) (src dst : List Nat)
    (p : VV) :
    icmpv6Checksum (setChecksum h c) src dst p = icmpv6Checksum h src dst p := by
  unfold icmpv6Checksum
  rw [zeroChecksum_setChecksum, length_setChecksum]

/-- A freshly written checksum verifies against the same pseudo-header and
payload. -/
theorem checksum_roundtrip (h : View) (src dst : List Nat) (p : VV)
    (hlen : 4 ≤ h.length) :
    embeddedChecksum (setChecksum h (icmpv6Checksum h src dst p)) =
      icmpv6Checksum (setChecksum h (icmpv6Checksum h src dst p)) src dst p := by
  rw [icmpv6Checksum_setChecksum,
    embeddedChecksum_setChecksum _ _ hlen (icmpv6Checksum_lt _ _ _ _)]

theorem getD_drop (l : List Nat) (n m dflt : Nat) :
    (l.drop n).getD m dflt = l.getD (n + m) dflt := by
  induction l generalizing n with
  | nil => simp
  | cons x xs ih =>
    cases n with
    | zero => simp
    | succ n' =>
      rw [List.drop_succ_cons, ih n', Nat.succ_add, List.getD_cons_succ]

theorem drop_set_of_lt (l : List Nat) (m n a : Nat) (h : m < n) :
    (l.set m a).drop n = l.drop n := by
  induction l generalizing m n with
  | nil => simp
  | cons x xs ih =>
    cases m with
    | zero =>
      cases n with
      | zero => omega
      | succ k => simp
    | succ m' =>
      cases n with
      | zero => omega
      | succ k => simpa using ih m' k (by omega)

theorem getD_take (l : List Nat) (n i dflt : Nat) (h : i < n) :
    (l.take n).getD i dflt = l.getD i dflt := by
  induction l generalizing n i with
  | nil => simp
  | cons x xs ih =>
    cases n with
    | zero => omega
    | succ n' =>
      cases i with
      | zero => simp
      | succ i' => simpa using ih n' i' (by omega)

theorem vvFlatten_trimFront (d : VV) (n : Nat) :
    vvFlatten (vvTrimFront d n) = (vvFlatten d).drop n := by
  induction d generalizing n with
  | nil => simp [vvTrimFront, vvFlatten]
  | cons v vs ih =>
    rw [vvTrimFront]
    by_cases h0 : n = 0
    · simp [h0]
    · rw [if_neg h0]
      by_cases hlt : n < v.length
      · rw [if_pos hlt]
        have h1 : n - v.length = 0 := Nat.sub_eq_zero_of_le (Nat.le_of_lt hlt)
        simp [vvFlatten, List.drop_append_eq_append_drop, h1]
      · rw [if_neg hlt, ih]
        have hge : v.length ≤ n := Nat.le_of_not_lt hlt
        have : v.drop n = [] := List.drop_eq_nil_of_le hge
        simp [vvFlatten, List.drop_append_eq_append_drop, this]

/-! ### Dispatch lemmas: a size- and checksum-valid message reaches exactly
the branch selected by its type byte. -/

theorem handleICMP_eq_ns (e : Endpoint) (env : Env) (r : Route) (iph : View)
    (d : VV) (hf : Bool)
    (hlen : icmpv6MinimumSize ≤ (vvFirst d).length)
    (hck : embeddedChecksum (vvFirst d) = icmpv6Checksum (vvFirst d)
      (ipv6SourceAddress iph) (ipv6DestinationAddress iph) (vvTail d))
    (htype : icmpType (vvFirst d) = 135) :
    handleICMP e env r iph d hf
      = handleNS e env r (vvFirst d) (isNDPValid iph (vvFirst d) hf) := by
  have h1 : ¬ (vvFirst d).length < icmpv6MinimumSize := Nat.not_lt.2 hlen
  simp [handleICMP, h1, hck, htype]

theorem handleICMP_eq_na (e : Endpoint) (env : Env) (r : Route) (iph : View)
    (d : VV) (hf : Bool)
    (hlen : icmpv6MinimumSize ≤ (vvFirst d).length)
    (hck : embeddedChecksum (vvFirst d) = icmpv6Checksum (vvFirst d)
      (ipv6SourceAddress iph) (ipv6DestinationAddress iph) (vvTail d))
    (htype : icmpType (vvFirst d) = 136) :
    handleICMP e env r iph d hf
      = handleNA env r (vvFirst d) (isNDPValid iph (vvFirst d) hf) := by
  have h1 : ¬ (vvFirst d).length < icmpv6MinimumSize := Nat.not_lt.2 hlen
  simp [handleICMP, h1, hck, htype]

theorem handleICMP_eq_echoRequest (e : Endpoint) (env : Env) (r : Route)
    (iph : View) (d : VV) (hf : Bool)
    (hlen : icmpv6MinimumSize ≤ (vvFirst d).length)
    (hck : embeddedChecksum (vvFirst d) = icmpv6Checksum (vvFirst d)
      (ipv6SourceAddress iph) (ipv6DestinationAddress iph) (vvTail d))
    (htype : icmpType (vvFirst d) = 128) :
    handleICMP e env r iph d hf = handleEchoRequest env r (vvFirst d) d := by
  have h1 : ¬ (vvFirst d).length < icmpv6MinimumSize := Nat.not_lt.2 hlen
  simp [handleICMP, h1, hck, htype]

theorem handleICMP_eq_rs (e : Endpoint) (env : Env) (r : Route) (iph : View)
    (d : VV) (hf : Bool)
    (hlen : icmpv6MinimumSize ≤ (vvFirst d).length)
    (hck : embeddedChecksum (vvFirst d) = icmpv6Checksum (vvFirst d)
      (ipv6SourceAddress iph) (ipv6DestinationAddress iph) (vvTail d))
    (htype : icmpType (vvFirst d) = 133) :
    handleICMP e env r iph d hf
      = handleRS env r iph (vvFirst d) (isNDPValid iph (vvFirst d) hf) := by
  have h1 : ¬ (vvFirst d).length < icmpv6MinimumSize := Nat.not_lt.2 hlen
  simp [handleICMP, h1, hck, htype]

theorem handleICMP_eq_ra (e : Endpoint) (env : Env) (r : Route) (iph : View)
    (d : VV) (hf : Bool)
    (hlen : icmpv6MinimumSize ≤ (vvFirst d).length)
    (hck : embeddedChecksum (vvFirst d) = icmpv6Checksum (vvFirst d)
      (ipv6SourceAddress iph) (ipv6DestinationAddress iph) (vvTail d))
    (htype : icmpType (vvFirst d) = 134) :
    handleICMP e env r iph d hf
      = handleRA r iph (vvFirst d) (isNDPValid iph (vvFirst d) hf) := by
  have h1 : ¬ (vvFirst d).length < icmpv6MinimumSize := Nat.not_lt.2 hlen
  simp [handleICMP, h1, hck, htype]

theorem handleICMP_eq_packetTooBig (e : Endpoint) (env : Env) (r : Route)
    (iph : View) (d : VV) (hf : Bool)
    (hlen : icmpv6MinimumSize ≤ (vvFirst d).length)
    (hck : embeddedChecksum (vvFirst d) = icmpv6Checksum (vvFirst d)
      (ipv6SourceAddress iph) (ipv6DestinationAddress iph) (vvTail d))
    (htype : icmpType (vvFirst d) = 2) :
    handleICMP e env r iph d hf = handlePacketTooBig e d (vvFirst d) := by
  have h1 : ¬ (vvFirst d).length < icmpv6MinimumSize := Nat.not_lt.2 hlen
  simp [handleICMP, h1, hck, htype]

theorem handleICMP_eq_dstUnreachable (e : Endpoint) (env : Env) (r : Route)
    (iph : View) (d : VV) (hf : Bool)
    (hlen : icmpv6MinimumSize ≤ (vvFirst d).length)
    (hck : embeddedChecksum (vvFirst d) = icmpv6Checksum (vvFirst d)
      (ipv6SourceAddress iph) (ipv6DestinationAddress iph) (vvTail d))
    (htype : icmpType (vvFirst d) = 1) :
    handleICMP e env r iph d hf = handleDstUnreachable e d (vvFirst d) := by
  have h1 : ¬ (vvFirst d).length < icmpv6MinimumSize := Nat.not_lt.2 hlen
  simp [handleICMP, h1, hck, htype]

/-! ### Loop lemmas -/

theorem raLoop_events_probe (r : Route) (a : List Nat) (opts : List NDPOpt)
    (er : Bool) :
    ∀ ev ∈ (raLoop r a opts er).events,
      ∃ la, ev = .handleProbe a r.localAddress ipv6ProtocolNumber la := by
  induction opts with
  | nil => cases er <;> simp [raLoop]
  | cons o rest ih =>
    cases o with
    | sourceLinkLayer la =>
      intro ev hev
      rw [raLoop] at hev
      simp only [List.mem_cons] at hev
      rcases hev with h | h
      · exact ⟨la, h⟩
      · exact ih ev h
    | targetLinkLayer la => exact ih
    | other t => exact ih

theorem raLoop_transmitted (r : Route) (a : List Nat) (opts : List NDPOpt)
    (er : Bool) : (raLoop r a opts er).transmitted = [] := by
  induction opts with
  | nil => cases er <;> simp [raLoop]
  | cons o rest ih => cases o <;> simpa [raLoop] using ih

theorem raLoop_invalid (r : Route) (a : List Nat) (opts : List NDPOpt)
    (er : Bool) : (raLoop r a opts er).invalid = if er then 1 else 0 := by
  induction opts with
  | nil => cases er <;> simp [raLoop]
  | cons o rest ih => cases o <;> simpa [raLoop] using ih

theorem raLoop_events_eq (r : Route) (a : List Nat) (opts : List NDPOpt)
    (er : Bool) :
    (raLoop r a opts er).events = sllProbes a r.localAddress opts := by
  induction opts with
  | nil => cases er <;> simp [raLoop, sllProbes]
  | cons o rest ih => cases o <;> simp [raLoop, sllProbes, ih]

theorem rsLoop_events_eq (r : Route) (a : List Nat) (opts : List NDPOpt)
    (er : Bool) (ha : a.length ≠ 0) :
    (rsLoop r a opts er).events = sllProbes a r.localAddress opts := by
  induction opts with
  | nil => cases er <;> simp [rsLoop, sllProbes]
  | cons o rest ih =>
    cases o with
    | sourceLinkLayer la => rw [rsLoop, if_neg ha]; simp [sllProbes, ih]
    | targetLinkLayer la => simpa [rsLoop, sllProbes] using ih
    | other t => simpa [rsLoop, sllProbes] using ih

theorem rsLoop_events_probe (r : Route) (a : List Nat) (opts : List NDPOpt)
    (er : Bool) :
    ∀ ev ∈ (rsLoop r a opts er).events,
      ∃ la, ev = .handleProbe a r.localAddress ipv6ProtocolNumber la := by
  induction opts with
  | nil => cases er <;> simp [rsLoop]
  | cons o rest ih =>
    cases o with
    | sourceLinkLayer la =>
      intro ev hev
      rw [rsLoop] at hev
      by_cases ha : a.length = 0
      · rw [if_pos ha] at hev; simp at hev
      · rw [if_neg ha] at hev
        simp only [List.mem_cons] at hev
        rcases hev with h | h
        · exact ⟨la, h⟩
        · exact ih ev h
    | targetLinkLayer la => exact ih
    | other t => exact ih

theorem rsLoop_transmitted (r : Route) (a : List Nat) (opts : List NDPOpt)
    (er : Bool) : (rsLoop r a opts er).transmitted = [] := by
  induction opts with
  | nil => cases er <;> simp [rsLoop]
  | cons o rest ih =>
    cases o with
    | sourceLinkLayer la =>
      rw [rsLoop]
      by_cases ha : a.length = 0
      · rw [if_pos ha]
      · rw [if_neg ha]; simpa using ih
    | targetLinkLayer la => simpa [rsLoop] using ih
    | other t => simpa [rsLoop] using ih

theorem rsLoop_invalid (r : Route) (a : List Nat) (opts : List NDPOpt)
    (er : Bool) (ha : a.length ≠ 0) :
    (rsLoop r a opts er).invalid = if er then 1 else 0 := by
  induction opts with
  | nil => cases er <;> simp [rsLoop]
  | cons o rest ih =>
    cases o with
    | sourceLinkLayer la => rw [rsLoop, if_neg ha]; simpa using ih
    | targetLinkLayer la => simpa [rsLoop] using ih
    | other t => simpa [rsLoop] using ih

/-! ### Observations on the constructed Neighbor Advertisement -/

theorem naMessage_getD4 (s : Bool) (tgt la : List Nat) :
    (naMessage s tgt la).getD 4 0 = (if s then 64 else 0) + 32 := by
  cases s <;> rfl

theorem naMessage_length (s : Bool) (tgt la : List Nat) :
    (naMessage s tgt la).length = 8 + (tgt.length + (2 + la.length)) := by
  simp [naMessage]
  omega

theorem na_reply_type (s : Bool) (tgt la : List Nat) (c : Nat) :
    icmpType (setChecksum (naMessage s tgt la) c) = 136 := by
  rw [icmpType, setChecksum, getD_set_ne _ 3 0 _ _ (by omega),
    getD_set_ne _ 2 0 _ _ (by omega)]
  cases s <;> rfl

theorem na_reply_solicited (s : Bool) (tgt la : List Nat) (c : Nat) :
    naSolicitedFlag (setChecksum (naMessage s tgt la) c) = s := by
  rw [naSolicitedFlag, ndpPayload, getD_drop, setChecksum,
    getD_set_ne _ 3 4 _ _ (by omega), getD_set_ne _ 2 4 _ _ (by omega),
    naMessage_getD4]
  cases s <;> decide

theorem na_reply_override (s : Bool) (tgt la : List Nat) (c : Nat) :
    naOverrideFlag (setChecksum (naMessage s tgt la) c) = true := by
  rw [naOverrideFlag, ndpPayload, getD_drop, setChecksum,
    getD_set_ne _ 3 4 _ _ (by omega), getD_set_ne _ 2 4 _ _ (by omega),
    naMessage_getD4]
  cases s <;> decide

theorem na_reply_target (s : Bool) (tgt la : List Nat) (c : Nat)
    (htgt : tgt.length = 16) :
    naTargetAddress (setChecksum (naMessage s tgt la) c) = tgt := by
  rw [naTargetAddress, ndpPayload, setChecksum,
    drop_set_of_lt _ 3 4 _ (by omega), drop_set_of_lt _ 2 4 _ (by omega)]
  have h1 : (naMessage s tgt la).drop 4 = [(if s then 64 else 0) + 32, 0, 0, 0]
      ++ (tgt ++ ([2, 1] ++ la)) := by
    simp [naMessage]
  rw [h1]
  have h2 : (([(if s then 64 else 0) + 32, 0, 0, 0]
      ++ (tgt ++ ([2, 1] ++ la))).drop 4) = tgt ++ ([2, 1] ++ la) := by
    simp
  rw [h2, ← htgt, List.take_left]

/-! ### Claim theorems -/

/-- Claim C4: a message of at least the global minimum size whose embedded
checksum differs from the pseudo-header checksum over the full payload is
dropped before the type switch with exactly one Invalid increment: no
per-type counter moves, no reply is transmitted, no collaborator is
invoked. -/
theorem checksum_gate_drops_before_dispatch (e : Endpoint) (env : Env)
    (r : Route) (iph : View) (d : VV) (hf : Bool)
    (hlen : icmpv6MinimumSize ≤ (vvFirst d).length)
    (hck : embeddedChecksum (vvFirst d) ≠ icmpv6Checksum (vvFirst d)
      (ipv6SourceAddress iph) (ipv6DestinationAddress iph) (vvTail d)) :
    handleICMP e env r iph d hf = { invalid := 1 } := by
  have h1 : ¬ (vvFirst d).length < icmpv6MinimumSize := Nat.not_lt.2 hlen
  simp [handleICMP, h1, hck]

/-- Witness for C4 at a concrete Echo Request with a corrupted checksum. -/
theorem checksum_gate_drops_before_dispatch_witness :
    embeddedChecksum (vvFirst [badCkPkt]) ≠ icmpv6Checksum (vvFirst [badCkPkt])
      (ipv6SourceAddress (mkIph addrA addrB))
      (ipv6DestinationAddress (mkIph addrA addrB)) (vvTail [badCkPkt])
    ∧ handleICMP epA envA routeA (mkIph addrA addrB) [badCkPkt] false
      = { invalid := 1 } :=
  ⟨by decide,
    checksum_gate_drops_before_dispatch epA envA routeA (mkIph addrA addrB)
      [badCkPkt] false (by decide) (by decide)⟩

/-- Claim C9: a message below the global ICMPv6 minimum size, or below the
type-specific minimum for its type, increments the Invalid counter, is
dropped, and causes no collaborator call and no transmission. -/
theorem minimum_size_gate (e : Endpoint) (env : Env) (r : Route) (iph : View)
    (d : VV) (hf : Bool)
    (hsize : (vvFirst d).length < icmpv6MinimumSize
      ∨ ∃ m, typeSpecificMinSize (icmpType (vvFirst d)) = some m
        ∧ (vvFirst d).length < m) :
    (handleICMP e env r iph d hf).invalid = 1
    ∧ (handleICMP e env r iph d hf).events = []
    ∧ (handleICMP e env r iph d hf).transmitted = [] := by
  rcases hsize with h8 | ⟨m, hm, hlt⟩
  · simp [handleICMP, h8]
  · by_cases h8 : (vvFirst d).length < icmpv6MinimumSize
    · simp [handleICMP, h8]
    · by_cases hck : embeddedChecksum (vvFirst d) = icmpv6Checksum (vvFirst d)
        (ipv6SourceAddress iph) (ipv6DestinationAddress iph) (vvTail d)
      case neg => simp [handleICMP, h8, hck]
      case pos =>
        have hlen := Nat.not_lt.1 h8
        simp only [icmpv6MinimumSize] at h8
        by_cases ht : icmpType (vvFirst d) = 2
        · simp [typeSpecificMinSize, ht,
            icmpv6PacketTooBigMinimumSize] at hm
          exfalso; omega
        · by_cases ht1 : icmpType (vvFirst d) = 1
          · simp [typeSpecificMinSize, ht, ht1,
              icmpv6DstUnreachableMinimumSize] at hm
            exfalso; omega
          · by_cases ht135 : icmpType (vvFirst d) = 135
            · rw [handleICMP_eq_ns e env r iph d hf hlen hck ht135]
              simp [typeSpecificMinSize, ht, ht1, ht135,
                icmpv6NeighborSolicitMinimumSize] at hm
              have : (vvFirst d).length < icmpv6NeighborSolicitMinimumSize := by
                simp only [icmpv6NeighborSolicitMinimumSize]; omega
              simp [handleNS, this]
            · by_cases ht136 : icmpType (vvFirst d) = 136
              · rw [handleICMP_eq_na e env r iph d hf hlen hck ht136]
                simp [typeSpecificMinSize, ht, ht1, ht135, ht136,
                  icmpv6NeighborAdvertSize] at hm
                have : (vvFirst d).length < icmpv6NeighborAdvertSize := by
                  simp only [icmpv6NeighborAdvertSize]; omega
                simp [handleNA, this]
              · by_cases ht128 : icmpType (vvFirst d) = 128
                · simp [typeSpecificMinSize, ht, ht1, ht135, ht136, ht128, icmpv6EchoMinimumSize] at hm
                  exfalso; omega
                · by_cases ht129 : icmpType (vvFirst d) = 129
                  · simp [typeSpecificMinSize, ht, ht1, ht135, ht136,
                      ht128, ht129, icmpv6EchoMinimumSize] at hm
                    exfalso; omega
                  · by_cases ht133 : icmpType (vvFirst d) = 133
                    · simp [typeSpecificMinSize, ht, ht1, ht135, ht136,
                        ht128, ht129, ht133, icmpv6HeaderSize,
                        ndpRSMinimumSize] at hm
                      exfalso; omega
                    · by_cases ht134 : icmpType (vvFirst d) = 134
                      · rw [handleICMP_eq_ra e env r iph d hf hlen hck ht134]
                        simp [typeSpecificMinSize, ht, ht1, ht135, ht136,
                          ht128, ht129, ht133, ht134,
                          icmpv6HeaderSize, ndpRAMinimumSize] at hm
                        have : (ndpPayload (vvFirst d)).length
                            < ndpRAMinimumSize := by
                          simp only [ndpPayload, List.length_drop,
                            ndpRAMinimumSize]
                          omega
                        simp [handleRA, this]
                      · simp [typeSpecificMinSize, ht, ht1, ht135, ht136,
                          ht128, ht129, ht133, ht134] at hm

/-- Witness for C9 at a 10-byte Neighbor Solicitation (below the 24-byte
NS minimum). -/
theorem minimum_size_gate_witness :
    typeSpecificMinSize (icmpType (vvFirst [shortNsPkt])) = some 24
    ∧ (vvFirst [shortNsPkt]).length < 24
    ∧ (handleICMP epA envA routeA (mkIph addrA addrB) [shortNsPkt] false).invalid = 1
    ∧ (handleICMP epA envA routeA (mkIph addrA addrB) [shortNsPkt] false).events = []
    ∧ (handleICMP epA envA routeA (mkIph addrA addrB) [shortNsPkt] false).transmitted = [] :=
  ⟨by decide, by decide,
    minimum_size_gate epA envA routeA (mkIph addrA addrB) [shortNsPkt] false
      (Or.inr ⟨24, by decide, by decide⟩)⟩

/-- Claim C10: handleControl delivers control information to the transport
dispatcher only when the embedded original packet holds at least a full
minimum IPv6 header whose source address equals the receiving endpoint's
local address; when either condition fails at the Packet Too Big or
Destination Unreachable (Port Unreachable) entry points, the message is
silently discarded with no Invalid increment and no transport delivery. -/
theorem control_delivery_gate :
    (∀ (e : Endpoint) (typ : ControlType) (extra : Nat) (d : VV),
      ((vvFirst d).length < ipv6MinimumSize
        ∨ ipv6SourceAddress (vvFirst d) ≠ e.localAddress) →
      handleControl e typ extra d = [])
    ∧ (∀ (e : Endpoint) (typ : ControlType) (extra : Nat) (d : VV),
      handleControl e typ extra d ≠ [] →
      ipv6MinimumSize ≤ (vvFirst d).length
        ∧ ipv6SourceAddress (vvFirst d) = e.localAddress)
    ∧ (∀ (e : Endpoint) (env : Env) (r : Route) (iph : View) (d : VV)
        (hf : Bool),
      icmpv6MinimumSize ≤ (vvFirst d).length →
      embeddedChecksum (vvFirst d) = icmpv6Checksum (vvFirst d)
        (ipv6SourceAddress iph) (ipv6DestinationAddress iph) (vvTail d) →
      icmpType (vvFirst d) = 2 →
      ((vvFirst (vvTrimFront d icmpv6PacketTooBigMinimumSize)).length
          < ipv6MinimumSize
        ∨ ipv6SourceAddress (vvFirst (vvTrimFront d icmpv6PacketTooBigMinimumSize))
          ≠ e.localAddress) →
      handleICMP e env r iph d hf = { packetTooBig := 1 })
    ∧ (∀ (e : Endpoint) (env : Env) (r : Route) (iph : View) (d : VV)
        (hf : Bool),
      icmpv6MinimumSize ≤ (vvFirst d).length →
      embeddedChecksum (vvFirst d) = icmpv6Checksum (vvFirst d)
        (ipv6SourceAddress iph) (ipv6DestinationAddress iph) (vvTail d) →
      icmpType (vvFirst d) = 1 →
      icmpCode (vvFirst d) = icmpv6PortUnreachableCode →
      ((vvFirst (vvTrimFront d icmpv6DstUnreachableMinimumSize)).length
          < ipv6MinimumSize
        ∨ ipv6SourceAddress (vvFirst (vvTrimFront d icmpv6DstUnreachableMinimumSize))
          ≠ e.localAddress) →
      handleICMP e env r iph d hf = { dstUnreachable := 1 }) := by
  have hgate : ∀ (e : Endpoint) (typ : ControlType) (extra : Nat) (d : VV),
      ((vvFirst d).length < ipv6MinimumSize
        ∨ ipv6SourceAddress (vvFirst d) ≠ e.localAddress) →
      handleControl e typ extra d = [] := by
    intro e typ extra d hcond
    simp only [handleControl]
    rw [if_pos hcond]
  refine ⟨hgate, ?_, ?_, ?_⟩
  · intro e typ extra d hne
    by_cases h1 : (vvFirst d).length < ipv6MinimumSize
        ∨ ipv6SourceAddress (vvFirst d) ≠ e.localAddress
    · exact absurd (hgate e typ extra d h1) hne
    · push_neg at h1
      exact ⟨h1.1, h1.2⟩
  · intro e env r iph d hf hlen hck htype hinner
    rw [handleICMP_eq_packetTooBig e env r iph d hf hlen hck htype]
    have h8 : ¬ (vvFirst d).length < icmpv6PacketTooBigMinimumSize := by
      simp only [icmpv6MinimumSize] at hlen
      simp only [icmpv6PacketTooBigMinimumSize]; omega
    simp only [handlePacketTooBig]
    rw [if_neg h8,
      hgate e ControlType.packetTooBig (calculateMTU (icmpMTU (vvFirst d)))
        (vvTrimFront d icmpv6PacketTooBigMinimumSize) hinner]
  · intro e env r iph d hf hlen hck htype hcode hinner
    rw [handleICMP_eq_dstUnreachable e env r iph d hf hlen hck htype]
    have h8 : ¬ (vvFirst d).length < icmpv6DstUnreachableMinimumSize := by
      simp only [icmpv6MinimumSize] at hlen
      simp only [icmpv6DstUnreachableMinimumSize]; omega
    simp only [handleDstUnreachable]
    rw [if_neg h8, if_pos hcode,
      hgate e ControlType.portUnreachable 0
        (vvTrimFront d icmpv6DstUnreachableMinimumSize) hinner]

/-- Witness for C10 at a Packet Too Big message whose embedded original
header has a foreign source address. -/
theorem control_delivery_gate_witness :
    ipv6SourceAddress (vvFirst (vvTrimFront [ptbPkt] icmpv6PacketTooBigMinimumSize))
      ≠ epA.localAddress
    ∧ handleICMP epA envA routeA (mkIph addrA addrB) [ptbPkt] false
      = { packetTooBig := 1 } :=
  ⟨by decide,
    control_delivery_gate.2.2.1 epA envA routeA (mkIph addrA addrB) [ptbPkt]
      false (by decide) (by decide) (by decide) (Or.inr (by decide))⟩

/-- Claim C8: a size-valid Echo Request yields exactly one transmitted
reply whose identifier, sequence number and payload are byte-for-byte the
request's, whose type is Echo Reply, whose embedded checksum verifies
against the reply's own pseudo-header (the reply route's local and remote
addresses), sent with the route's default TTL and default TOS; write
failure increments the Dropped sent counter, success the EchoReply sent
counter. -/
theorem echo_roundtrip (e : Endpoint) (env : Env) (r : Route) (iph : View)
    (d : VV) (hf : Bool)
    (hlen : icmpv6MinimumSize ≤ (vvFirst d).length)
    (hck : embeddedChecksum (vvFirst d) = icmpv6Checksum (vvFirst d)
      (ipv6SourceAddress iph) (ipv6DestinationAddress iph) (vvTail d))
    (htype : icmpType (vvFirst d) = 128) :
    ∃ t : Transmitted,
      (handleICMP e env r iph d hf).transmitted = [t]
      ∧ icmpType t.hdr = 129
      ∧ t.hdr.getD 4 0 = (vvFirst d).getD 4 0
      ∧ t.hdr.getD 5 0 = (vvFirst d).getD 5 0
      ∧ t.hdr.getD 6 0 = (vvFirst d).getD 6 0
      ∧ t.hdr.getD 7 0 = (vvFirst d).getD 7 0
      ∧ vvFlatten t.data = (vvFlatten d).drop icmpv6EchoMinimumSize
      ∧ embeddedChecksum t.hdr
          = icmpv6Checksum t.hdr t.localAddr t.remoteAddr t.data
      ∧ t.localAddr = r.localAddress ∧ t.remoteAddr = r.remoteAddress
      ∧ t.ttl = r.defaultTTL ∧ t.tos = 0
      ∧ (env.writeOk = true →
          (handleICMP e env r iph d hf).sentEchoReply = 1
          ∧ (handleICMP e env r iph d hf).sentDropped = 0)
      ∧ (env.writeOk = false →
          (handleICMP e env r iph d hf).sentDropped = 1
          ∧ (handleICMP e env r iph d hf).sentEchoReply = 0) := by
  rw [handleICMP_eq_echoRequest e env r iph d hf hlen hck htype]
  have h8 : ¬ (vvFirst d).length < icmpv6EchoMinimumSize := by
    simp only [icmpv6MinimumSize] at hlen
    simp only [icmpv6EchoMinimumSize]; omega
  have hYlen : (((vvFirst d).take icmpv6EchoMinimumSize).set 0 129).length = 8 := by
    simp only [List.length_set, List.length_take, icmpv6EchoMinimumSize]
    simp only [icmpv6MinimumSize] at hlen
    omega
  have hgetD : ∀ i : Nat, 4 ≤ i → i < 8 →
      (setChecksum (((vvFirst d).take icmpv6EchoMinimumSize).set 0 129)
        (icmpv6Checksum (((vvFirst d).take icmpv6EchoMinimumSize).set 0 129)
          r.localAddress r.remoteAddress
          (vvTrimFront d icmpv6EchoMinimumSize))).getD i 0
      = (vvFirst d).getD i 0 := by
    intro i h4 hi
    rw [setChecksum, getD_set_ne _ 3 i _ _ (by omega),
      getD_set_ne _ 2 i _ _ (by omega), getD_set_ne _ 0 i _ _ (by omega),
      getD_take _ _ _ _ (by simp only [icmpv6EchoMinimumSize]; omega)]
  refine ⟨{ hdr := setChecksum (((vvFirst d).take icmpv6EchoMinimumSize).set 0 129)
              (icmpv6Checksum (((vvFirst d).take icmpv6EchoMinimumSize).set 0 129)
                r.localAddress r.remoteAddress (vvTrimFront d icmpv6EchoMinimumSize)),
            data := vvTrimFront d icmpv6EchoMinimumSize, ttl := r.defaultTTL,
            tos := 0, localAddr := r.localAddress, remoteAddr := r.remoteAddress,
            remoteLinkAddr := r.remoteLinkAddress, protocol := icmpv6ProtocolNumber },
    ?_, ?_, hgetD 4 (by omega) (by omega), hgetD 5 (by omega) (by omega),
    hgetD 6 (by omega) (by omega), hgetD 7 (by omega) (by omega),
    vvFlatten_trimFront d icmpv6EchoMinimumSize, ?_, rfl, rfl, rfl, rfl, ?_, ?_⟩
  · cases hw : env.writeOk <;> simp [handleEchoRequest, h8, hw]
  · rw [icmpType, setChecksum, getD_set_ne _ 3 0 _ _ (by omega),
      getD_set_ne _ 2 0 _ _ (by omega),
      getD_set_self _ 0 _ _ (by
        simp only [List.length_take, icmpv6EchoMinimumSize]
        simp only [icmpv6MinimumSize] at hlen
        omega)]
  · exact checksum_roundtrip _ r.localAddress r.remoteAddress
      (vvTrimFront d icmpv6EchoMinimumSize) (by omega)
  · intro hw
    simp [handleEchoRequest, h8, hw]
  · intro hw
    simp [handleEchoRequest, h8, hw]

/-- Witness for C8 at an Echo Request with identifier 0x1234, sequence 7
and payload "ping". -/
theorem echo_roundtrip_witness :
    icmpType (vvFirst [echoReqPkt]) = 128
    ∧ ∃ t : Transmitted,
      (handleICMP epA envA routeA (mkIph addrA addrB) [echoReqPkt] false).transmitted = [t]
      ∧ icmpType t.hdr = 129
      ∧ t.hdr.getD 4 0 = (vvFirst [echoReqPkt]).getD 4 0
      ∧ t.hdr.getD 5 0 = (vvFirst [echoReqPkt]).getD 5 0
      ∧ t.hdr.getD 6 0 = (vvFirst [echoReqPkt]).getD 6 0
      ∧ t.hdr.getD 7 0 = (vvFirst [echoReqPkt]).getD 7 0
      ∧ vvFlatten t.data = (vvFlatten [echoReqPkt]).drop icmpv6EchoMinimumSize
      ∧ embeddedChecksum t.hdr
          = icmpv6Checksum t.hdr t.localAddr t.remoteAddr t.data
      ∧ t.localAddr = routeA.localAddress ∧ t.remoteAddr = routeA.remoteAddress
      ∧ t.ttl = routeA.defaultTTL ∧ t.tos = 0
      ∧ (envA.writeOk = true →
          (handleICMP epA envA routeA (mkIph addrA addrB) [echoReqPkt] false).sentEchoReply = 1
          ∧ (handleICMP epA envA routeA (mkIph addrA addrB) [echoReqPkt] false).sentDropped = 0)
      ∧ (envA.writeOk = false →
          (handleICMP epA envA routeA (mkIph addrA addrB) [echoReqPkt] false).sentDropped = 1
          ∧ (handleICMP epA envA routeA (mkIph addrA addrB) [echoReqPkt] false).sentEchoReply = 0) :=
  ⟨by decide,
    echo_roundtrip epA envA routeA (mkIph addrA addrB) [echoReqPkt] false
      (by decide) (by decide) (by decide)⟩

/-- Claim C3: for a Neighbor Solicitation or Advertisement reaching the
tentative-address check with a tentative target: a Solicitation from the
unspecified source triggers exactly one DupTentativeAddrDetected call and
no Advertisement; a Solicitation from a specified source is silently
dropped with no call; an Advertisement triggers exactly one call and is
dropped; and a tentative-query error silently drops with no call in every
case. -/
theorem tentative_target_dad (e : Endpoint) (env : Env) (r : Route)
    (iph : View) (d : VV) (hf : Bool)
    (hlen8 : icmpv6MinimumSize ≤ (vvFirst d).length)
    (hck : embeddedChecksum (vvFirst d) = icmpv6Checksum (vvFirst d)
      (ipv6SourceAddress iph) (ipv6DestinationAddress iph) (vvTail d)) :
    (icmpType (vvFirst d) = 135 →
      icmpv6NeighborSolicitMinimumSize ≤ (vvFirst d).length →
      isNDPValid iph (vvFirst d) hf = true →
      env.isAddrTentative e.nicID (nsTargetAddress (vvFirst d)) = some true →
      r.remoteAddress = ipv6Any →
      handleICMP e env r iph d hf
        = { neighborSolicit := 1,
            events := [.dupTentativeAddrDetected e.nicID
                        (nsTargetAddress (vvFirst d))] })
    ∧ (icmpType (vvFirst d) = 135 →
      icmpv6NeighborSolicitMinimumSize ≤ (vvFirst d).length →
      isNDPValid iph (vvFirst d) hf = true →
      env.isAddrTentative e.nicID (nsTargetAddress (vvFirst d)) = some true →
      r.remoteAddress ≠ ipv6Any →
      handleICMP e env r iph d hf = { neighborSolicit := 1 })
    ∧ (icmpType (vvFirst d) = 135 →
      icmpv6NeighborSolicitMinimumSize ≤ (vvFirst d).length →
      isNDPValid iph (vvFirst d) hf = true →
      env.isAddrTentative e.nicID (nsTargetAddress (vvFirst d)) = none →
      handleICMP e env r iph d hf = { neighborSolicit := 1 })
    ∧ (icmpType (vvFirst d) = 136 →
      icmpv6NeighborAdvertSize ≤ (vvFirst d).length →
      isNDPValid iph (vvFirst d) hf = true →
      (iterOptions (naOptions (vvFirst d))).2 = false →
      env.isAddrTentative r.nicID (naTargetAddress (vvFirst d)) = some true →
      handleICMP e env r iph d hf
        = { neighborAdvert := 1,
            events := [.dupTentativeAddrDetected r.nicID
                        (naTargetAddress (vvFirst d))] })
    ∧ (icmpType (vvFirst d) = 136 →
      icmpv6NeighborAdvertSize ≤ (vvFirst d).length →
      isNDPValid iph (vvFirst d) hf = true →
      (iterOptions (naOptions (vvFirst d))).2 = false →
      env.isAddrTentative r.nicID (naTargetAddress (vvFirst d)) = none →
      handleICMP e env r iph d hf = { neighborAdvert := 1 }) := by
  refine ⟨?_, ?_, ?_, ?_, ?_⟩
  · intro htype hlen hndp hten hunspec
    rw [handleICMP_eq_ns e env r iph d hf hlen8 hck htype]
    simp [handleNS, Nat.not_lt.2 hlen, hndp, hten, hunspec]
  · intro htype hlen hndp hten hspec
    rw [handleICMP_eq_ns e env r iph d hf hlen8 hck htype]
    simp [handleNS, Nat.not_lt.2 hlen, hndp, hten, hspec]
  · intro htype hlen hndp hten
    rw [handleICMP_eq_ns e env r iph d hf hlen8 hck htype]
    simp [handleNS, Nat.not_lt.2 hlen, hndp, hten]
  · intro htype hlen hndp herr hten
    rw [handleICMP_eq_na e env r iph d hf hlen8 hck htype]
    simp [handleNA, Nat.not_lt.2 hlen, hndp, herr, hten]
  · intro htype hlen hndp herr hten
    rw [handleICMP_eq_na e env r iph d hf hlen8 hck htype]
    simp [handleNA, Nat.not_lt.2 hlen, hndp, herr, hten]

/-- Witness for C3 at a DAD probe: a Neighbor Solicitation for a tentative
address from the unspecified source. -/
theorem tentative_target_dad_witness :
    envTentative.isAddrTentative epA.nicID (nsTargetAddress (vvFirst [nsDadPkt]))
      = some true
    ∧ handleICMP epA envTentative routeUnspec (mkIph ipv6Any addrB) [nsDadPkt]
        false
      = { neighborSolicit := 1,
          events := [.dupTentativeAddrDetected epA.nicID
                      (nsTargetAddress (vvFirst [nsDadPkt]))] } :=
  ⟨by decide,
    (tentative_target_dad epA envTentative routeUnspec (mkIph ipv6Any addrB)
      [nsDadPkt] false (by decide) (by decide)).1 (by decide) (by decide)
      (by decide) (by decide) (by decide)⟩

/-- Claim C2: for a Neighbor Solicitation reaching option processing: more
than one Source Link-Layer Address option, or the option present with an
unspecified source, or the option absent on a multicast destination with a
specified source, each increments Invalid and drops the packet with no
reply and no collaborator call; exactly one option with a specified source
produces exactly one HandleProbe(remote, local, IPv6 protocol number,
option link address) call. -/
theorem ns_option_rules (e : Endpoint) (env : Env) (r : Route) (iph : View)
    (d : VV) (hf : Bool)
    (hlen8 : icmpv6MinimumSize ≤ (vvFirst d).length)
    (hck : embeddedChecksum (vvFirst d) = icmpv6Checksum (vvFirst d)
      (ipv6SourceAddress iph) (ipv6DestinationAddress iph) (vvTail d))
    (htype : icmpType (vvFirst d) = 135)
    (hlen : icmpv6NeighborSolicitMinimumSize ≤ (vvFirst d).length)
    (hndp : isNDPValid iph (vvFirst d) hf = true)
    (hten : env.isAddrTentative e.nicID (nsTargetAddress (vvFirst d))
      = some false)
    (hloc : env.checkLocalAddress e.nicID ipv6ProtocolNumber
      (nsTargetAddress (vvFirst d)) ≠ 0) :
    (scanNSOpts (iterOptions (nsOptions (vvFirst d))).1 [] = none →
      handleICMP e env r iph d hf = { neighborSolicit := 1, invalid := 1 })
    ∧ (∀ sl, scanNSOpts (iterOptions (nsOptions (vvFirst d))).1 [] = some sl →
      sl.length ≠ 0 → r.remoteAddress = ipv6Any →
      handleICMP e env r iph d hf = { neighborSolicit := 1, invalid := 1 })
    ∧ (∀ sl, scanNSOpts (iterOptions (nsOptions (vvFirst d))).1 [] = some sl →
      sl.length = 0 → isV6MulticastAddress r.localAddress = true →
      r.remoteAddress ≠ ipv6Any →
      handleICMP e env r iph d hf = { neighborSolicit := 1, invalid := 1 })
    ∧ (∀ sl, scanNSOpts (iterOptions (nsOptions (vvFirst d))).1 [] = some sl →
      sl.length ≠ 0 → r.remoteAddress ≠ ipv6Any →
      (iterOptions (nsOptions (vvFirst d))).2 = false →
      (handleICMP e env r iph d hf).events
        = [.handleProbe r.remoteAddress r.localAddress ipv6ProtocolNumber sl]
      ∧ (handleICMP e env r iph d hf).invalid = 0) := by
  refine ⟨?_, ?_, ?_, ?_⟩
  · intro hscan
    rw [handleICMP_eq_ns e env r iph d hf hlen8 hck htype]
    simp [handleNS, Nat.not_lt.2 hlen, hndp, hten, hloc, hscan]
  · intro sl hscan hsl hunspec
    rw [handleICMP_eq_ns e env r iph d hf hlen8 hck htype]
    by_cases herr : (iterOptions (nsOptions (vvFirst d))).2 = true
    · simp [handleNS, Nat.not_lt.2 hlen, hndp, hten, hloc, hscan, herr]
    · rw [Bool.not_eq_true] at herr
      simp [handleNS, Nat.not_lt.2 hlen, hndp, hten, hloc, hscan, herr, hsl,
        hunspec]
  · intro sl hscan hsl hmulti hspec
    rw [handleICMP_eq_ns e env r iph d hf hlen8 hck htype]
    by_cases herr : (iterOptions (nsOptions (vvFirst d))).2 = true
    · simp [handleNS, Nat.not_lt.2 hlen, hndp, hten, hloc, hscan, herr]
    · rw [Bool.not_eq_true] at herr
      simp [handleNS, Nat.not_lt.2 hlen, hndp, hten, hloc, hscan, herr, hsl,
        hmulti, hspec]
  · intro sl hscan hsl hspec herr
    rw [handleICMP_eq_ns e env r iph d hf hlen8 hck htype]
    cases hw : env.writeOk <;>
      simp [handleNS, Nat.not_lt.2 hlen, hndp, hten, hloc, hscan, herr, hsl,
        hspec, nsReply, hw]

/-- Witness for C2 at a Neighbor Solicitation carrying one Source
Link-Layer Address option from a specified source. -/
theorem ns_option_rules_witness :
    scanNSOpts (iterOptions (nsOptions (vvFirst [nsPkt]))).1 [] = some linkA
    ∧ (handleICMP epA envA routeA (mkIph addrA addrB) [nsPkt] false).events
      = [.handleProbe routeA.remoteAddress routeA.localAddress
          ipv6ProtocolNumber linkA]
    ∧ (handleICMP epA envA routeA (mkIph addrA addrB) [nsPkt] false).invalid
      = 0 :=
  ⟨by decide,
    (ns_option_rules epA envA routeA (mkIph addrA addrB) [nsPkt] false
      (by decide) (by decide) (by decide) (by decide) (by decide) (by decide)
      (by decide)).2.2.2 linkA (by decide) (by decide) (by decide)
      (by decide)⟩

/-- Claim C1: a Neighbor Solicitation passing the size check, the NDP
validity gate, the tentative-address and local-ownership checks, and the
option rules transmits exactly one Neighbor Advertisement sourced at the
solicited target address with hop limit 255: an unspecified source clears
Solicited and redirects to the all-nodes multicast address, a specified
source keeps Solicited set and replies to the original source with the
remote link address overridden by a present Source Link-Layer Address
option; Override is always set, the target address is the solicited
target, a single Target Link-Layer Address option carries the local link
address, the checksum is computed over the constructed message with no
extra payload, and transmit failure increments only the Dropped sent
counter. -/
theorem ns_advert_response (e : Endpoint) (env : Env) (r : Route)
    (iph : View) (d : VV) (hf : Bool)
    (hlen8 : icmpv6MinimumSize ≤ (vvFirst d).length)
    (hck : embeddedChecksum (vvFirst d) = icmpv6Checksum (vvFirst d)
      (ipv6SourceAddress iph) (ipv6DestinationAddress iph) (vvTail d))
    (htype : icmpType (vvFirst d) = 135)
    (hlen : icmpv6NeighborSolicitMinimumSize ≤ (vvFirst d).length)
    (hndp : isNDPValid iph (vvFirst d) hf = true)
    (hten : env.isAddrTentative e.nicID (nsTargetAddress (vvFirst d))
      = some false)
    (hloc : env.checkLocalAddress e.nicID ipv6ProtocolNumber
      (nsTargetAddress (vvFirst d)) ≠ 0)
    (sl : List Nat)
    (hscan : scanNSOpts (iterOptions (nsOptions (vvFirst d))).1 [] = some sl)
    (herr : (iterOptions (nsOptions (vvFirst d))).2 = false)
    (hr1 : sl.length = 0 →
      ¬(isV6MulticastAddress r.localAddress = true
        ∧ ¬(r.remoteAddress = ipv6Any)))
    (hr2 : sl.length ≠ 0 → ¬(r.remoteAddress = ipv6Any)) :
    (handleICMP e env r iph d hf).transmitted
      = [{ hdr := setChecksum
              (naMessage (if r.remoteAddress = ipv6Any then false else true)
                (nsTargetAddress (vvFirst d)) r.localLinkAddress)
              (icmpv6Checksum
                (naMessage (if r.remoteAddress = ipv6Any then false else true)
                  (nsTargetAddress (vvFirst d)) r.localLinkAddress)
                (nsTargetAddress (vvFirst d))
                (if r.remoteAddress = ipv6Any then ipv6AllNodesMulticastAddress
                 else r.remoteAddress) []),
           data := [], ttl := ndpHopLimit, tos := 0,
           localAddr := nsTargetAddress (vvFirst d),
           remoteAddr := if r.remoteAddress = ipv6Any
             then ipv6AllNodesMulticastAddress else r.remoteAddress,
           remoteLinkAddr := if sl.length ≠ 0 then sl
             else r.remoteLinkAddress,
           protocol := icmpv6ProtocolNumber }]
    ∧ (∀ t ∈ (handleICMP e env r iph d hf).transmitted,
        embeddedChecksum t.hdr
          = icmpv6Checksum t.hdr t.localAddr t.remoteAddr t.data
        ∧ naSolicitedFlag t.hdr
          = (if r.remoteAddress = ipv6Any then false else true)
        ∧ naOverrideFlag t.hdr = true
        ∧ icmpType t.hdr = 136
        ∧ naTargetAddress t.hdr = nsTargetAddress (vvFirst d))
    ∧ (handleICMP e env r iph d hf).invalid = 0
    ∧ (env.writeOk = true →
        (handleICMP e env r iph d hf).sentNeighborAdvert = 1
        ∧ (handleICMP e env r iph d hf).sentDropped = 0)
    ∧ (env.writeOk = false →
        (handleICMP e env r iph d hf).sentDropped = 1
        ∧ (handleICMP e env r iph d hf).sentNeighborAdvert = 0) := by
  rw [handleICMP_eq_ns e env r iph d hf hlen8 hck htype]
  have htgt : (nsTargetAddress (vvFirst d)).length = 16 := by
    simp only [nsTargetAddress, ndpPayload, List.length_take, List.length_drop]
    simp only [icmpv6NeighborSolicitMinimumSize] at hlen
    omega
  have hmain : handleNS e env r (vvFirst d) (isNDPValid iph (vvFirst d) hf)
      = nsReply env r (nsTargetAddress (vvFirst d)) sl
          (if sl.length = 0 then []
           else [.handleProbe r.remoteAddress r.localAddress
              ipv6ProtocolNumber sl]) := by
    by_cases hsl : sl.length = 0
    · have hr1' := hr1 hsl
      simp [handleNS, Nat.not_lt.2 hlen, hndp, hten, hloc, hscan, herr, hsl,
        hr1']
    · have hr2' := hr2 hsl
      simp [handleNS, Nat.not_lt.2 hlen, hndp, hten, hloc, hscan, herr, hsl,
        hr2']
  rw [hmain]
  have hT : (nsReply env r (nsTargetAddress (vvFirst d)) sl
        (if sl.length = 0 then []
         else [.handleProbe r.remoteAddress r.localAddress
            ipv6ProtocolNumber sl])).transmitted
      = [{ hdr := setChecksum
              (naMessage (if r.remoteAddress = ipv6Any then false else true)
                (nsTargetAddress (vvFirst d)) r.localLinkAddress)
              (icmpv6Checksum
                (naMessage (if r.remoteAddress = ipv6Any then false else true)
                  (nsTargetAddress (vvFirst d)) r.localLinkAddress)
                (nsTargetAddress (vvFirst d))
                (if r.remoteAddress = ipv6Any then ipv6AllNodesMulticastAddress
                 else r.remoteAddress) []),
           data := [], ttl := ndpHopLimit, tos := 0,
           localAddr := nsTargetAddress (vvFirst d),
           remoteAddr := if r.remoteAddress = ipv6Any
             then ipv6AllNodesMulticastAddress else r.remoteAddress,
           remoteLinkAddr := if sl.length ≠ 0 then sl
             else r.remoteLinkAddress,
           protocol := icmpv6ProtocolNumber }] := by
    cases hw : env.writeOk <;> simp [nsReply, hw]
  refine ⟨hT, ?_, ?_, ?_, ?_⟩
  · intro t ht
    rw [hT, List.mem_singleton] at ht
    subst ht
    refine ⟨?_, na_reply_solicited _ _ _ _, na_reply_override _ _ _ _,
      na_reply_type _ _ _ _, na_reply_target _ _ _ _ htgt⟩
    exact checksum_roundtrip _ _ _ _ (by rw [naMessage_length]; omega)
  · cases hw : env.writeOk <;> simp [nsReply, hw]
  · intro hw; simp [nsReply, hw]
  · intro hw; simp [nsReply, hw]

/-- Witness for C1 at a solicited Neighbor Solicitation with one Source
Link-Layer Address option. -/
theorem ns_advert_response_witness :
    isNDPValid (mkIph addrA addrB) (vvFirst [nsPkt]) false = true
    ∧ (handleICMP epA envA routeA (mkIph addrA addrB) [nsPkt] false).transmitted
      = [{ hdr := setChecksum
              (naMessage (if routeA.remoteAddress = ipv6Any then false else true)
                (nsTargetAddress (vvFirst [nsPkt])) routeA.localLinkAddress)
              (icmpv6Checksum
                (naMessage (if routeA.remoteAddress = ipv6Any then false else true)
                  (nsTargetAddress (vvFirst [nsPkt])) routeA.localLinkAddress)
                (nsTargetAddress (vvFirst [nsPkt]))
                (if routeA.remoteAddress = ipv6Any
                 then ipv6AllNodesMulticastAddress
                 else routeA.remoteAddress) []),
           data := [], ttl := ndpHopLimit, tos := 0,
           localAddr := nsTargetAddress (vvFirst [nsPkt]),
           remoteAddr := if routeA.remoteAddress = ipv6Any
             then ipv6AllNodesMulticastAddress else routeA.remoteAddress,
           remoteLinkAddr := if linkA.length ≠ 0 then linkA
             else routeA.remoteLinkAddress,
           protocol := icmpv6ProtocolNumber }] :=
  ⟨by decide,
    (ns_advert_response epA envA routeA (mkIph addrA addrB) [nsPkt] false
      (by decide) (by decide) (by decide) (by decide) (by decide) (by decide)
      (by decide) linkA (by decide) (by decide) (by decide) (by decide)).1⟩

/-- Claim C7: a size-valid, NDP-valid Router Advertisement from a
non-link-local source increments Invalid, is dropped, and never reaches
HandleNDPRA; from a link-local source with a well-formed option area
exactly one HandleNDPRA(receiving NIC, source, RA payload) call is made. -/
theorem ra_link_local_gate (e : Endpoint) (env : Env) (r : Route)
    (iph : View) (d : VV) (hf : Bool)
    (hlen8 : icmpv6MinimumSize ≤ (vvFirst d).length)
    (hck : embeddedChecksum (vvFirst d) = icmpv6Checksum (vvFirst d)
      (ipv6SourceAddress iph) (ipv6DestinationAddress iph) (vvTail d))
    (htype : icmpType (vvFirst d) = 134)
    (hlen : icmpv6HeaderSize + ndpRAMinimumSize ≤ (vvFirst d).length)
    (hndp : isNDPValid iph (vvFirst d) hf = true) :
    (isV6LinkLocalAddress (ipv6SourceAddress iph) = false →
      handleICMP e env r iph d hf = { routerAdvert := 1, invalid := 1 })
    ∧ (isV6LinkLocalAddress (ipv6SourceAddress iph) = true →
      (iterOptions (raOptions (vvFirst d))).2 = false →
      (handleICMP e env r iph d hf).events
        = .handleNDPRA r.nicID (ipv6SourceAddress iph)
            (ndpPayload (vvFirst d))
          :: (raLoop r (ipv6SourceAddress iph)
                (iterOptions (raOptions (vvFirst d))).1 false).events
      ∧ (∀ ev ∈ (raLoop r (ipv6SourceAddress iph)
            (iterOptions (raOptions (vvFirst d))).1 false).events,
          ∃ la, ev = .handleProbe (ipv6SourceAddress iph) r.localAddress
            ipv6ProtocolNumber la)
      ∧ (handleICMP e env r iph d hf).invalid = 0) := by
  have hplen : ¬ (ndpPayload (vvFirst d)).length < ndpRAMinimumSize := by
    simp only [ndpPayload, List.length_drop, ndpRAMinimumSize]
    simp only [icmpv6HeaderSize, ndpRAMinimumSize] at hlen
    omega
  constructor
  · intro hll
    rw [handleICMP_eq_ra e env r iph d hf hlen8 hck htype]
    simp [handleRA, hplen, hndp, hll]
  · intro hll herr
    rw [handleICMP_eq_ra e env r iph d hf hlen8 hck htype]
    refine ⟨?_, raLoop_events_probe r _ _ false, ?_⟩
    · simp [handleRA, hplen, hndp, hll, herr]
    · simp [handleRA, hplen, hndp, hll, herr, raLoop_invalid]

/-- Witness for C7 at a Router Advertisement from a link-local source with
one Source Link-Layer Address option. -/
theorem ra_link_local_gate_witness :
    isV6LinkLocalAddress (ipv6SourceAddress (mkIph addrA addrB)) = true
    ∧ (handleICMP epA envA routeA (mkIph addrA addrB) [raGoodPkt] false).events
      = .handleNDPRA routeA.nicID (ipv6SourceAddress (mkIph addrA addrB))
          (ndpPayload (vvFirst [raGoodPkt]))
        :: (raLoop routeA (ipv6SourceAddress (mkIph addrA addrB))
              (iterOptions (raOptions (vvFirst [raGoodPkt]))).1 false).events
    ∧ (∀ ev ∈ (raLoop routeA (ipv6SourceAddress (mkIph addrA addrB))
          (iterOptions (raOptions (vvFirst [raGoodPkt]))).1 false).events,
        ∃ la, ev = .handleProbe (ipv6SourceAddress (mkIph addrA addrB))
          routeA.localAddress ipv6ProtocolNumber la)
    ∧ (handleICMP epA envA routeA (mkIph addrA addrB) [raGoodPkt] false).invalid
      = 0 :=
  ⟨by decide,
    (ra_link_local_gate epA envA routeA (mkIph addrA addrB) [raGoodPkt] false
      (by decide) (by decide) (by decide) (by decide) (by decide)).2
      (by decide) (by decide)⟩

/-- Claim C5 (divergence witness): a Router Solicitation from the
unspecified address :: carrying a Source Link-Layer Address option is not
silently dropped; the reachability probe is fed with the unspecified
address as remote, because the code guards on the byte length of the
source address, which is 16 even for ::. -/
theorem rs_unspecified_source_probe_divergence :
    handleICMP epA envA routeUnspec (mkIph ipv6Any addrB) [rsUnspecPkt] false
      = { routerSolicit := 1,
          events := [.handleProbe ipv6Any addrB ipv6ProtocolNumber linkA] }
    ∧ (ipv6SourceAddress (mkIph ipv6Any addrB)).length = 16 := by
  constructor <;> decide

/-- Claim C6 (counterexample): a Router Advertisement whose option area is
malformed after one valid Source Link-Layer Address option still results
in a HandleNDPRA call and a probe for the parsed option, and a Router
Solicitation whose option area is malformed after one valid Source
Link-Layer Address option still results in a probe for the parsed option,
so the options of a malformed packet are partially applied, refuting the
claim on both paths. -/
theorem malformed_options_counterexample :
    (iterOptions (raOptions (vvFirst [raMalformedPkt]))).2 = true
    ∧ handleICMP epA envA routeA (mkIph addrA addrB) [raMalformedPkt] false
      = { routerAdvert := 1, invalid := 1,
          events := [.handleNDPRA 7 addrA (ndpPayload raMalformedPkt),
            .handleProbe addrA addrB ipv6ProtocolNumber linkA] }
    ∧ (iterOptions (rsOptions (vvFirst [rsMalformedPkt]))).2 = true
    ∧ handleICMP epA envA routeA (mkIph addrA addrB) [rsMalformedPkt] false
      = { routerSolicit := 1, invalid := 1,
          events := [.handleProbe addrA addrB ipv6ProtocolNumber linkA] } := by
  refine ⟨by decide, by decide, by decide, by decide⟩

/-- Claim C6 (amended): a malformed NDP option area always drops the packet
with Invalid incremented and nothing transmitted; for Neighbor
Solicitations and Neighbor Advertisements no collaborator call takes
effect, while for Router Solicitations the probes for options parsed
before the malformed point are applied, and for Router Advertisements the
HandleNDPRA call and such probes are applied. -/
theorem malformed_options_amended (e : Endpoint) (env : Env) (r : Route)
    (iph : View) (d : VV) (hf : Bool)
    (hlen8 : icmpv6MinimumSize ≤ (vvFirst d).length)
    (hck : embeddedChecksum (vvFirst d) = icmpv6Checksum (vvFirst d)
      (ipv6SourceAddress iph) (ipv6DestinationAddress iph) (vvTail d)) :
    (icmpType (vvFirst d) = 135 →
      icmpv6NeighborSolicitMinimumSize ≤ (vvFirst d).length →
      isNDPValid iph (vvFirst d) hf = true →
      env.isAddrTentative e.nicID (nsTargetAddress (vvFirst d)) = some false →
      env.checkLocalAddress e.nicID ipv6ProtocolNumber
        (nsTargetAddress (vvFirst d)) ≠ 0 →
      (iterOptions (nsOptions (vvFirst d))).2 = true →
      handleICMP e env r iph d hf = { neighborSolicit := 1, invalid := 1 })
    ∧ (icmpType (vvFirst d) = 136 →
      icmpv6NeighborAdvertSize ≤ (vvFirst d).length →
      isNDPValid iph (vvFirst d) hf = true →
      (iterOptions (naOptions (vvFirst d))).2 = true →
      handleICMP e env r iph d hf = { neighborAdvert := 1, invalid := 1 })
    ∧ (icmpType (vvFirst d) = 133 →
      isNDPValid iph (vvFirst d) hf = true →
      env.forwarding = true →
      icmpv6HeaderSize + ndpRSMinimumSize ≤ (vvFirst d).length →
      (ipv6SourceAddress iph).length ≠ 0 →
      (iterOptions (rsOptions (vvFirst d))).2 = true →
      (handleICMP e env r iph d hf).invalid = 1
      ∧ (handleICMP e env r iph d hf).transmitted = []
      ∧ (handleICMP e env r iph d hf).events
        = sllProbes (ipv6SourceAddress iph) r.localAddress
            (iterOptions (rsOptions (vvFirst d))).1)
    ∧ (icmpType (vvFirst d) = 134 →
      icmpv6HeaderSize + ndpRAMinimumSize ≤ (vvFirst d).length →
      isNDPValid iph (vvFirst d) hf = true →
      isV6LinkLocalAddress (ipv6SourceAddress iph) = true →
      (iterOptions (raOptions (vvFirst d))).2 = true →
      (handleICMP e env r iph d hf).invalid = 1
      ∧ (handleICMP e env r iph d hf).transmitted = []
      ∧ (handleICMP e env r iph d hf).events
        = .handleNDPRA r.nicID (ipv6SourceAddress iph)
            (ndpPayload (vvFirst d))
          :: sllProbes (ipv6SourceAddress iph) r.localAddress
              (iterOptions (raOptions (vvFirst d))).1) := by
  refine ⟨?_, ?_, ?_, ?_⟩
  · intro htype hlen hndp hten hloc herr
    rw [handleICMP_eq_ns e env r iph d hf hlen8 hck htype]
    cases hscan : scanNSOpts (iterOptions (nsOptions (vvFirst d))).1 [] with
    | none =>
      simp [handleNS, Nat.not_lt.2 hlen, hndp, hten, hloc, hscan]
    | some sl =>
      simp [handleNS, Nat.not_lt.2 hlen, hndp, hten, hloc, hscan, herr]
  · intro htype hlen hndp herr
    rw [handleICMP_eq_na e env r iph d hf hlen8 hck htype]
    simp [handleNA, Nat.not_lt.2 hlen, hndp, herr]
  · intro htype hndp hfwd hlen hsrc herr
    rw [handleICMP_eq_rs e env r iph d hf hlen8 hck htype]
    have hplen : ¬ (ndpPayload (vvFirst d)).length < ndpRSMinimumSize := by
      simp only [ndpPayload, List.length_drop, ndpRSMinimumSize]
      simp only [icmpv6HeaderSize, ndpRSMinimumSize] at hlen
      omega
    have hout : handleRS env r iph (vvFirst d) (isNDPValid iph (vvFirst d) hf)
        = rsLoop r (ipv6SourceAddress iph)
            (iterOptions (rsOptions (vvFirst d))).1 true := by
      simp [handleRS, hndp, hfwd, hplen, herr]
    rw [hout]
    exact ⟨by rw [rsLoop_invalid r _ _ _ hsrc]; simp,
      rsLoop_transmitted r _ _ _, rsLoop_events_eq r _ _ _ hsrc⟩
  · intro htype hlen hndp hll herr
    rw [handleICMP_eq_ra e env r iph d hf hlen8 hck htype]
    have hplen : ¬ (ndpPayload (vvFirst d)).length < ndpRAMinimumSize := by
      simp only [ndpPayload, List.length_drop, ndpRAMinimumSize]
      simp only [icmpv6HeaderSize, ndpRAMinimumSize] at hlen
      omega
    refine ⟨?_, ?_, ?_⟩
    · simp [handleRA, hplen, hndp, hll, herr, raLoop_invalid]
    · simp [handleRA, hplen, hndp, hll, herr, raLoop_transmitted]
    · simp [handleRA, hplen, hndp, hll, herr, raLoop_events_eq]

/-- Witness for the amended C6 at a Neighbor Solicitation whose option
area has a zero length byte. -/
theorem malformed_options_amended_witness :
    (iterOptions (nsOptions (vvFirst [nsMalformedPkt]))).2 = true
    ∧ handleICMP epA envA routeA (mkIph addrA addrB) [nsMalformedPkt] false
      = { neighborSolicit := 1, invalid := 1 } :=
  ⟨by decide,
    (malformed_options_amended epA envA routeA (mkIph addrA addrB)
      [nsMalformedPkt] false (by decide) (by decide)).1 (by decide) (by decide)
      (by decide) (by decide) (by decide) (by decide)⟩

end GvisorIPv6
